import Mathlib

/-!
Shallow embedding of the SVG/PDF combiner's merge pipeline.

The repository has two variants of the conversion service:
* `PdfService` — the pdf-lib based service (`generatePdfFromFiles` in
  `src/components/UploadDropzone.tsx`, third bundled module), which is the one
  wired into the application;
* `SvgService` — the jsPDF based service (`generatePdfFromSvgs` in
  `src/unnamed/part_001`).

Numbers that are JavaScript doubles in the source are modelled as exact
rationals (ℚ); `Math.round` is modelled as `jsRound` (round half toward +∞)
and `Number.prototype.toFixed` as `jsToFixed0` / `jsToFixed1`.
-/

namespace PdfCombiner

/-- `type PdfQuality = 'low' | 'medium' | 'high'` from `src/types.ts`. -/
inductive PdfQuality where
  | low
  | medium
  | high
deriving DecidableEq, Fintype

/-- `interface QualitySettings { scale: number; quality: number }` (both variants). -/
structure QualitySettings where
  scale : ℚ
  quality : ℚ
deriving DecidableEq

/-- JavaScript `Math.round`: round half toward +∞. -/
def jsRound (q : ℚ) : ℤ := ⌊q + 1/2⌋

/-- JavaScript `String.prototype.toLowerCase` (character-wise lowering). -/
def jsToLower (s : String) : String := ⟨s.data.map Char.toLower⟩

/-- JavaScript `String.prototype.endsWith`. -/
def jsEndsWith (s suffix : String) : Bool := suffix.data.isSuffixOf s.data

/-- JavaScript `String.prototype.trim` (strip whitespace at both ends). -/
def jsTrim (s : String) : String :=
  ⟨((s.data.dropWhile Char.isWhitespace).reverse.dropWhile Char.isWhitespace).reverse⟩

/-- JavaScript `x.toFixed(0)` for a nonnegative value. -/
def jsToFixed0 (q : ℚ) : String := toString (jsRound q).toNat

/-- JavaScript `x.toFixed(1)` for a nonnegative value. -/
def jsToFixed1 (q : ℚ) : String :=
  toString ((jsRound (q * 10)).toNat / 10) ++ "." ++ toString ((jsRound (q * 10)).toNat % 10)

/-- A page of a source paginated document: its own dimensions plus an opaque
content identifier (the model of one page of a parsed PDF). -/
structure SrcPage where
  width : ℚ
  height : ℚ
  content : Nat
deriving DecidableEq

/-- A page of the output document under construction.  `copied` is a page
copied verbatim from a source document; `imagePage` is a fresh A4 page with a
rasterized image drawn at offset `(x, y)` with size `width × height`;
`errorPage` is a fresh A4 page with diagnostic text drawn at `(x, y)`. -/
inductive OutPage where
  | copied (p : SrcPage)
  | imagePage (pageWidth pageHeight x y width height quality : ℚ)
  | errorPage (pageWidth pageHeight : ℚ) (text : String) (x y : ℚ)
deriving DecidableEq

/-- An input file as the conversion loop sees it (`AppFile` of `src/types.ts`
restricted to the fields the loop reads, with the externally-determined
outcomes of byte-level operations carried along): `parseResult` is what
parsing the file's bytes as a PDF yields (`none` = parse failure), and
`imageData` is the browser image decode result, the intrinsic pixel
dimensions (`none` = decode failure). -/
structure AppFile where
  name : String
  type : String
  parseResult : Option (List SrcPage)
  imageData : Option (Nat × Nat)
deriving DecidableEq

namespace PdfService

/-- A4 page width used by the pdf-lib variant: `PageSizes.A4 = [595.28, 841.89]`. -/
def A4Width : ℚ := 59528/100

/-- A4 page height used by the pdf-lib variant. -/
def A4Height : ℚ := 84189/100

/-- `QUALITY_CONFIG` of the pdf-lib variant:
`low: {scale: 1.0, quality: 0.6}, medium: {scale: 2.0, quality: 0.75},
high: {scale: 3.0, quality: 0.85}`. -/
def QUALITY_CONFIG : PdfQuality → QualitySettings
  | .low => { scale := 1, quality := 6/10 }
  | .medium => { scale := 2, quality := 75/100 }
  | .high => { scale := 3, quality := 85/100 }

/-- `getPdfSizeEstimate` of the pdf-lib variant (`UploadDropzone.tsx` bundle):
returns `"0 MB"` for count 0, otherwise `count * sizeMap[quality]` MB,
formatted as `~... KB` below 1 MB and `~... MB` (one decimal) otherwise. -/
def getPdfSizeEstimate (count : Nat) (quality : PdfQuality) : String :=
  if count = 0 then "0 MB"
  else
    let sizeMap : PdfQuality → ℚ := fun q =>
      match q with
      | .low => 15/100
      | .medium => 4/10
      | .high => 12/10
    let estimatedTotalMB : ℚ := (count : ℚ) * sizeMap quality
    if estimatedTotalMB < 1 then "~" ++ jsToFixed0 (estimatedTotalMB * 1000) ++ " KB"
    else "~" ++ jsToFixed1 estimatedTotalMB ++ " MB"

/-- The per-page megabyte table used by `getPdfSizeEstimate` (the `sizeMap`
local of the source), exposed for stating monotonicity. -/
def sizeMap : PdfQuality → ℚ
  | .low => 15/100
  | .medium => 4/10
  | .high => 12/10

/-- The `estimatedTotalMB` intermediate of `getPdfSizeEstimate`. -/
def estimatedTotalMB (count : Nat) (quality : PdfQuality) : ℚ :=
  (count : ℚ) * sizeMap quality

/-- `const isPdf = file.type === 'application/pdf' || file.name.toLowerCase().endsWith('.pdf')`. -/
def isPdf (f : AppFile) : Bool :=
  f.type == "application/pdf" || jsEndsWith (jsToLower f.name) ".pdf"

/-- `processFileToImageBuffer`: decodes the image behind the file's URL and
draws it on a canvas of size `(img.width || 595) * scale` by
`(img.height || 842) * scale`; returns the canvas dimensions (the JPEG bytes
themselves are outside the model).  `none` models the decode failing
(`img.onerror`). -/
def processFileToImageBuffer (settings : QualitySettings) (f : AppFile) :
    Option (ℚ × ℚ) :=
  f.imageData.map fun d =>
    let imgW : ℚ := if d.1 = 0 then 595 else (d.1 : ℚ)
    let imgH : ℚ := if d.2 = 0 then 842 else (d.2 : ℚ)
    (imgW * settings.scale, imgH * settings.scale)

/-- Modelled from the spec: pdf-lib's `image.scaleToFit(pageWidth, pageHeight)`
is library code not present in this repository; per the spec the placement
uses "a uniform scale factor = min(pageWidth/imgWidth, pageHeight/imgHeight)"
applied to both image dimensions. -/
def scaleToFit (pageWidth pageHeight w h : ℚ) : ℚ × ℚ :=
  let s := min (pageWidth / w) (pageHeight / h)
  (w * s, h * s)

/-- The text drawn on a recovery page:
``page.drawText(`Error processing file: ${file.name}`, { x: 50, y: 700 })``. -/
def errorText (name : String) : String := "Error processing file: " ++ name

/-- The body of one iteration of the `generatePdfFromFiles` loop: the pages
this input contributes to the merged document.  PDF branch: copy all pages of
the parsed source in order, or one error page on parse failure.  Image
branch: one A4 page with the rasterized image scaled to fit and centered, or
one error page on decode failure. -/
def processAppFile (settings : QualitySettings) (f : AppFile) : List OutPage :=
  if isPdf f then
    match f.parseResult with
    | some pages => pages.map OutPage.copied
    | none => [OutPage.errorPage A4Width A4Height (errorText f.name) 50 700]
  else
    match processFileToImageBuffer settings f with
    | some (w, h) =>
      let dims := scaleToFit A4Width A4Height w h
      let x := (A4Width - dims.1) / 2
      let y := (A4Height - dims.2) / 2
      [OutPage.imagePage A4Width A4Height x y dims.1 dims.2 settings.quality]
    | none => [OutPage.errorPage A4Width A4Height (errorText f.name) 50 700]

/-- The processing of `f` fails in the branch the loop takes for it: parse
failure in the PDF branch, decode failure in the image branch (the two ways
into the `catch` of the loop body). -/
def failsProcessing (settings : QualitySettings) (f : AppFile) : Bool :=
  if isPdf f then f.parseResult.isNone
  else (processFileToImageBuffer settings f).isNone

/-- The `for (let i = 0; i < files.length; i++)` loop of
`generatePdfFromFiles`: appends each input's pages to the document and, when
a progress callback was supplied, reports
`Math.round(((i + 1) / files.length) * 100)` after each input. -/
def runLoop (settings : QualitySettings) (total : Nat) (hasCallback : Bool) :
    List AppFile → Nat → List OutPage → List ℤ → List OutPage × List ℤ
  | [], _, doc, events => (doc, events)
  | f :: rest, i, doc, events =>
    let doc' := doc ++ processAppFile settings f
    let events' :=
      if hasCallback then events ++ [jsRound ((i + 1 : ℚ) / (total : ℚ) * 100)]
      else events
    runLoop settings total hasCallback rest (i + 1) doc' events'

/-- The percent value reported after the input at 0-based index `i` of a run
over `total` inputs: `Math.round(((i + 1) / files.length) * 100)`. -/
def progressPercent (total i : Nat) : ℤ := jsRound ((i + 1 : ℚ) / (total : ℚ) * 100)

/-- Filename finishing at the end of `generatePdfFromFiles`:
`const cleanFilename = filename.trim() || 'merged-document'` followed by
appending `.pdf` unless the lowercase name already ends with it. -/
def finishFilename (filename : String) : String :=
  let cleanFilename := if jsTrim filename = "" then "merged-document" else jsTrim filename
  if jsEndsWith (jsToLower cleanFilename) ".pdf" then cleanFilename
  else cleanFilename ++ ".pdf"

/-- `generatePdfFromFiles(files, quality, filename, onProgress?)`: returns
early with no output on an empty list; otherwise runs the conversion loop and
delivers the accumulated document under the finished filename.  The first
component is the delivered `(document, filename)` (`none` = nothing
delivered), the second the sequence of progress percentages passed to the
callback. -/
def generatePdfFromFiles (files : List AppFile) (quality : PdfQuality)
    (filename : String) (hasCallback : Bool) :
    Option (List OutPage × String) × List ℤ :=
  if files.length = 0 then (none, [])
  else
    let settings := QUALITY_CONFIG quality
    let r := runLoop settings files.length hasCallback files 0 [] []
    (some (r.1, finishFilename filename), r.2)

end PdfService

namespace SvgService

/-- `QUALITY_CONFIG` of the jsPDF variant (`src/unnamed/part_001`):
identical to the pdf-lib variant except `high` has scale 4.0. -/
def QUALITY_CONFIG : PdfQuality → QualitySettings
  | .low => { scale := 1, quality := 6/10 }
  | .medium => { scale := 2, quality := 75/100 }
  | .high => { scale := 4, quality := 85/100 }

/-- `getPdfSizeEstimate` of the jsPDF variant (`src/unnamed/part_001`),
textually the same computation as the pdf-lib variant's estimator. -/
def getPdfSizeEstimate (count : Nat) (quality : PdfQuality) : String :=
  if count = 0 then "0 MB"
  else
    let sizeMap : PdfQuality → ℚ := fun q =>
      match q with
      | .low => 15/100
      | .medium => 4/10
      | .high => 12/10
    let estimatedTotalMB : ℚ := (count : ℚ) * sizeMap quality
    if estimatedTotalMB < 1 then "~" ++ jsToFixed0 (estimatedTotalMB * 1000) ++ " KB"
    else "~" ++ jsToFixed1 estimatedTotalMB ++ " MB"

/-- The page-fit computation of the jsPDF variant (`generatePdfFromSvgs`,
`src/unnamed/part_001`): start from full page width, derive the height from
the aspect ratio, and clamp by height if the result is too tall. -/
def fitDims (pageWidth pageHeight w h : ℚ) : ℚ × ℚ :=
  let ratio := w / h
  let finalWidth := pageWidth
  let finalHeight := pageWidth / ratio
  if finalHeight > pageHeight then (pageHeight * ratio, pageHeight)
  else (finalWidth, finalHeight)

/-- Filename finishing of the jsPDF variant: same as the pdf-lib variant but
with default `'merged-vectors'`. -/
def finishFilename (filename : String) : String :=
  let cleanFilename := if jsTrim filename = "" then "merged-vectors" else jsTrim filename
  if jsEndsWith (jsToLower cleanFilename) ".pdf" then cleanFilename
  else cleanFilename ++ ".pdf"

end SvgService

/-! Concrete sample inputs used to instantiate the theorems. -/

/-- A decodable 100×200-pixel image input. -/
def imgFile : AppFile :=
  { name := "a.svg", type := "image/svg+xml", parseResult := none,
    imageData := some (100, 200) }

/-- An image input whose decode fails. -/
def badImgFile : AppFile :=
  { name := "corrupt.svg", type := "image/svg+xml", parseResult := none,
    imageData := none }

/-- A parseable two-page PDF input (US-letter sized pages). -/
def docFile : AppFile :=
  { name := "doc.pdf", type := "application/pdf",
    parseResult := some [⟨612, 792, 0⟩, ⟨612, 792, 1⟩], imageData := none }

/-- A PDF input whose parse fails. -/
def badDocFile : AppFile :=
  { name := "bad.pdf", type := "application/pdf", parseResult := none,
    imageData := none }

/-- A PDF input whose bytes parse successfully to a document with zero pages. -/
def emptyDocFile : AppFile :=
  { name := "empty.pdf", type := "application/pdf", parseResult := some [],
    imageData := none }

/-! ## Helper lemmas -/

open PdfService

/-- Unfolding of the conversion loop: starting from accumulated document
`doc` and events `events` at index `i`, the loop appends one page group per
input, in input order, and one progress value per input. -/
theorem runLoop_spec (s : QualitySettings) (total : Nat) (cb : Bool) :
    ∀ (fs : List AppFile) (i : Nat) (doc : List OutPage) (events : List ℤ),
    runLoop s total cb fs i doc events =
      (doc ++ (fs.map (processAppFile s)).flatten,
       events ++ (if cb then
         (List.range fs.length).map (fun k => progressPercent total (i + k)) else [])) := by
  intro fs
  induction fs with
  | nil => intro i doc events; simp [runLoop]
  | cons f rest ih =>
    intro i doc events
    rw [runLoop, ih]
    cases cb with
    | false => simp
    | true =>
      simp only [if_true, List.length_cons, List.map_cons, List.flatten_cons,
        List.append_assoc, List.range_succ_eq_map, List.map_map]
      have h1 : jsRound ((i + 1 : ℚ) / (total : ℚ) * 100) = progressPercent total (i + 0) := by
        simp [progressPercent]
      have h2 : (fun k => progressPercent total (i + 1 + k)) =
          ((fun k => progressPercent total (i + k)) ∘ Nat.succ) := by
        funext k
        simp only [Function.comp_apply]
        congr 1
        omega
      rw [h1, h2]
      simp

/-- Closed form of `generatePdfFromFiles` on a non-empty input list: the
delivered document is the concatenation of the per-input page groups, in
input order, and the reported percentages are one per input. -/
theorem generatePdfFromFiles_spec (files : List AppFile) (q : PdfQuality)
    (fn : String) (cb : Bool) (h : files ≠ []) :
    generatePdfFromFiles files q fn cb =
      (some ((files.map (processAppFile (QUALITY_CONFIG q))).flatten, finishFilename fn),
       if cb then
         (List.range files.length).map (fun k => progressPercent files.length k)
       else []) := by
  rw [generatePdfFromFiles, if_neg (show ¬files.length = 0 by simpa using h)]
  simp only [runLoop_spec, List.nil_append, Nat.zero_add]

/-- The reported percent is monotone in the input index. -/
theorem progressPercent_mono (total : Nat) {i j : Nat} (hij : i ≤ j) :
    progressPercent total i ≤ progressPercent total j := by
  unfold progressPercent jsRound
  apply Int.floor_mono
  have harg : ((i : ℚ) + 1) / (total : ℚ) * 100 ≤ ((j : ℚ) + 1) / (total : ℚ) * 100 := by
    rcases Nat.eq_zero_or_pos total with h0 | hpos
    · subst h0; simp
    · have htot : (0 : ℚ) < (total : ℚ) := by exact_mod_cast hpos
      have hij2 : ((i : ℚ) + 1) ≤ ((j : ℚ) + 1) := by
        have : (i : ℚ) ≤ (j : ℚ) := by exact_mod_cast hij
        linarith
      gcongr
  linarith

/-! ## Claim theorems -/

/-- C1.  Order preservation: on every non-empty ordered input list the
delivered document is exactly the concatenation of the per-input page
groups, the group list has one group per input, and the n-th group is the
page group the conversion loop produces for the n-th input file. -/
theorem order_preservation (files : List AppFile) (q : PdfQuality)
    (fn : String) (cb : Bool) (h : files ≠ []) :
    (generatePdfFromFiles files q fn cb).1 =
      some ((files.map (processAppFile (QUALITY_CONFIG q))).flatten, finishFilename fn) ∧
    (files.map (processAppFile (QUALITY_CONFIG q))).length = files.length ∧
    ∀ n (hn : n < files.length),
      (files.map (processAppFile (QUALITY_CONFIG q))).get ⟨n, by simpa using hn⟩ =
        processAppFile (QUALITY_CONFIG q) (files.get ⟨n, hn⟩) := by
  refine ⟨?_, by simp, ?_⟩
  · rw [generatePdfFromFiles_spec files q fn cb h]
  · intro n hn
    simp

/-- Witness for C1 at a concrete three-input list. -/
theorem order_preservation_witness :
    (generatePdfFromFiles [imgFile, badImgFile, docFile] PdfQuality.medium "Report" true).1 =
      some (([imgFile, badImgFile, docFile].map
          (processAppFile (QUALITY_CONFIG PdfQuality.medium))).flatten,
        finishFilename "Report") :=
  (order_preservation [imgFile, badImgFile, docFile] PdfQuality.medium "Report" true
    (by simp)).1

/-- C2.  Per-input failure recovery: if the processing of input `f` fails in
the branch taken for it (PDF parse failure or image decode failure), then
`f`'s contribution to the output is exactly one A4-sized page whose
diagnostic text contains `f`'s display name, and a run over any list
containing `f` still completes and delivers a document in which that single
error page stands at `f`'s position. -/
theorem per_input_recovery (pre suf : List AppFile) (f : AppFile)
    (q : PdfQuality) (fn : String) (cb : Bool)
    (h : failsProcessing (QUALITY_CONFIG q) f = true) :
    processAppFile (QUALITY_CONFIG q) f =
      [OutPage.errorPage A4Width A4Height (errorText f.name) 50 700] ∧
    (∃ s, errorText f.name = s ++ f.name) ∧
    (generatePdfFromFiles (pre ++ f :: suf) q fn cb).1 =
      some ((pre.map (processAppFile (QUALITY_CONFIG q))).flatten ++
          OutPage.errorPage A4Width A4Height (errorText f.name) 50 700 ::
            (suf.map (processAppFile (QUALITY_CONFIG q))).flatten,
        finishFilename fn) := by
  have hproc : processAppFile (QUALITY_CONFIG q) f =
      [OutPage.errorPage A4Width A4Height (errorText f.name) 50 700] := by
    rw [failsProcessing] at h
    by_cases hp : isPdf f
    · rw [processAppFile, if_pos hp]
      rw [if_pos hp, Option.isNone_iff_eq_none] at h
      rw [h]
    · rw [processAppFile, if_neg hp]
      rw [if_neg hp, Option.isNone_iff_eq_none] at h
      rw [h]
  refine ⟨hproc, ⟨"Error processing file: ", rfl⟩, ?_⟩
  rw [(generatePdfFromFiles_spec (pre ++ f :: suf) q fn cb (by simp))]
  simp [hproc]

/-- Witness for C2: a failing image between a good image and a good PDF. -/
theorem per_input_recovery_witness :
    (generatePdfFromFiles [imgFile, badImgFile, docFile] PdfQuality.low "out" false).1 =
      some (([imgFile].map (processAppFile (QUALITY_CONFIG PdfQuality.low))).flatten ++
          OutPage.errorPage A4Width A4Height (errorText badImgFile.name) 50 700 ::
            ([docFile].map (processAppFile (QUALITY_CONFIG PdfQuality.low))).flatten,
        finishFilename "out") :=
  (per_input_recovery [imgFile] [docFile] badImgFile PdfQuality.low "out" false
    (by decide)).2.2

/-- C3.  Progress signal correctness: with a callback provided and a
non-empty input list of length N, the emitted sequence is exactly
`[round(100·1/N), …, round(100·N/N)]` (one callback invocation per input,
the i-th passing `round(100·i/N)`), the sequence is monotonically
non-decreasing, its final value is 100, and on an empty input list the run
returns immediately with no output and no progress signal. -/
theorem progress_signal (files : List AppFile) (q : PdfQuality) (fn : String)
    (h : files ≠ []) :
    (generatePdfFromFiles files q fn true).2 =
      (List.range files.length).map
        (fun (i : Nat) => jsRound (100 * ((i : ℚ) + 1) / (files.length : ℚ))) ∧
    List.Pairwise (· ≤ ·) ((generatePdfFromFiles files q fn true).2) ∧
    ((generatePdfFromFiles files q fn true).2).getLast? = some 100 ∧
    ∀ q2 fn2 cb, generatePdfFromFiles ([] : List AppFile) q2 fn2 cb = (none, []) := by
  have hev : (generatePdfFromFiles files q fn true).2 =
      (List.range files.length).map (fun k => progressPercent files.length k) := by
    rw [generatePdfFromFiles_spec files q fn true h]
    simp
  have hfun : (fun k : Nat => progressPercent files.length k) =
      (fun (i : Nat) => jsRound (100 * ((i : ℚ) + 1) / (files.length : ℚ))) := by
    funext k
    unfold progressPercent
    congr 1
    ring
  refine ⟨by rw [hev, hfun], ?_, ?_, ?_⟩
  · rw [hev]
    rw [List.pairwise_map]
    exact (List.pairwise_lt_range files.length).imp
      (fun hij => progressPercent_mono files.length (le_of_lt hij))
  · rw [hev]
    obtain ⟨m, hm⟩ := Nat.exists_eq_succ_of_ne_zero
      (show files.length ≠ 0 by simpa using h)
    rw [hm, List.range_succ, List.map_append]
    simp only [List.map_cons, List.map_nil]
    rw [List.getLast?_concat]
    have hval : progressPercent (m + 1) m = 100 := by
      unfold progressPercent jsRound
      have harg : ((m : ℚ) + 1) / ((m + 1 : Nat) : ℚ) * 100 = 100 := by
        have hne : ((m : ℚ) + 1) ≠ 0 := by positivity
        push_cast
        field_simp
      rw [harg]
      norm_num
    rw [hval]
  · intro q2 fn2 cb
    rw [generatePdfFromFiles]
    simp

/-- Witness for C3 at a concrete three-input run. -/
theorem progress_signal_witness :
    (generatePdfFromFiles [imgFile, badImgFile, docFile] PdfQuality.high "x" true).2 =
      (List.range ([imgFile, badImgFile, docFile] : List AppFile).length).map
        (fun (i : Nat) => jsRound (100 * ((i : ℚ) + 1) /
          ((([imgFile, badImgFile, docFile] : List AppFile).length : ℚ)))) :=
  (progress_signal [imgFile, badImgFile, docFile] PdfQuality.high "x" (by simp)).1

/-- C4.  Paginated-document branch: an input is routed to the PDF branch
exactly when its declared MIME type is `application/pdf` or its lowercased
display name ends with `.pdf` (re-derived inside the loop, not trusted from
upstream filtering); and for every such input that parses, the contribution
to the output is all of the source's pages, copied in their original order,
so its page contribution count equals the source document's page count. -/
theorem pdf_branch (f : AppFile) (s : QualitySettings) (pages : List SrcPage) :
    (isPdf f = true ↔
      f.type = "application/pdf" ∨ jsEndsWith (jsToLower f.name) ".pdf" = true) ∧
    (isPdf f = true → f.parseResult = some pages →
      processAppFile s f = pages.map OutPage.copied ∧
      (processAppFile s f).length = pages.length ∧
      ∀ n (hn : n < pages.length),
        (pages.map OutPage.copied).get ⟨n, by simpa using hn⟩ =
          OutPage.copied (pages.get ⟨n, hn⟩)) := by
  constructor
  · rw [isPdf]
    simp
  · intro hp hres
    have hproc : processAppFile s f = pages.map OutPage.copied := by
      rw [processAppFile, if_pos hp, hres]
    exact ⟨hproc, by rw [hproc]; simp, fun n hn => by simp⟩

/-- Witness for C4 at the concrete two-page PDF input. -/
theorem pdf_branch_witness :
    processAppFile (QUALITY_CONFIG PdfQuality.medium) docFile =
      [SrcPage.mk 612 792 0, SrcPage.mk 612 792 1].map OutPage.copied :=
  ((pdf_branch docFile (QUALITY_CONFIG PdfQuality.medium)
      [SrcPage.mk 612 792 0, SrcPage.mk 612 792 1]).2
    (by decide) rfl).1

/-- C5.  Image placement: for positive page dimensions `(W, H)` and image
dimensions `(w, h)`, both the pdf-lib placement (`scaleToFit`) and the jsPDF
variant's width-first-then-height computation (`fitDims`) produce placed
dimensions `(w·s, h·s)` with `s = min(W/w, H/h)`; and in the conversion loop
a successfully rasterized image yields exactly one A4 page with the image so
scaled and centered, at offsets `((W - w·s)/2, (H - h·s)/2)`. -/
theorem image_placement (W H w h : ℚ) (hw : 0 < w) (hh : 0 < h)
    (hW : 0 < W) (hH : 0 < H) :
    scaleToFit W H w h = (w * min (W / w) (H / h), h * min (W / w) (H / h)) ∧
    SvgService.fitDims W H w h =
      (w * min (W / w) (H / h), h * min (W / w) (H / h)) ∧
    (∀ s f, isPdf f = false → processFileToImageBuffer s f = some (w, h) →
      processAppFile s f =
        [OutPage.imagePage A4Width A4Height
          ((A4Width - (scaleToFit A4Width A4Height w h).1) / 2)
          ((A4Height - (scaleToFit A4Width A4Height w h).2) / 2)
          (scaleToFit A4Width A4Height w h).1
          (scaleToFit A4Width A4Height w h).2 s.quality]) := by
  refine ⟨rfl, ?_, ?_⟩
  · simp only [SvgService.fitDims]
    split_ifs with hcond
    · have hxy : H * w < W * h := by
        rw [gt_iff_lt, div_div_eq_mul_div, lt_div_iff hw] at hcond
        linarith
      have hmin : min (W / w) (H / h) = H / h := min_eq_right (by
        rw [div_le_div_iff hh hw]
        linarith)
      rw [hmin, Prod.mk.injEq]
      constructor
      · field_simp
        ring
      · field_simp
    · have hxy : W * h ≤ H * w := by
        rw [not_lt, div_div_eq_mul_div, div_le_iff hw] at hcond
        linarith
      have hmin : min (W / w) (H / h) = W / w := min_eq_left (by
        rw [div_le_div_iff hw hh]
        linarith)
      rw [hmin, Prod.mk.injEq]
      constructor
      · field_simp
      · field_simp
        ring
  · intro s f hpdf hbuf
    rw [processAppFile, if_neg (by simp [hpdf]), hbuf]

/-- Witness for C5 at concrete dimensions. -/
theorem image_placement_witness :
    SvgService.fitDims 10 20 4 5 =
      (4 * min ((10 : ℚ) / 4) ((20 : ℚ) / 5), 5 * min ((10 : ℚ) / 4) ((20 : ℚ) / 5)) :=
  (image_placement 10 20 4 5 (by decide) (by decide) (by decide) (by decide)).2.1

/-- C6.  Filename finishing: the examples of the spec hold, and in general
the finished name is the trimmed requested name with default
`merged-document` substituted when the trimmed name is empty and with
`.pdf` appended unless the name already ends with it case-insensitively. -/
theorem filename_finishing :
    (finishFilename "" = "merged-document.pdf" ∧
     finishFilename "Report" = "Report.pdf" ∧
     finishFilename "Report.PDF" = "Report.PDF") ∧
    (∀ fn, jsTrim fn = "" → finishFilename fn = "merged-document.pdf") ∧
    (∀ fn, jsTrim fn ≠ "" → jsEndsWith (jsToLower (jsTrim fn)) ".pdf" = true →
      finishFilename fn = jsTrim fn) ∧
    (∀ fn, jsTrim fn ≠ "" → jsEndsWith (jsToLower (jsTrim fn)) ".pdf" = false →
      finishFilename fn = jsTrim fn ++ ".pdf") := by
  refine ⟨⟨by decide, by decide, by decide⟩, ?_, ?_, ?_⟩
  · intro fn htrim
    have hends : jsEndsWith (jsToLower "merged-document") ".pdf" = false := by decide
    simp [finishFilename, htrim, hends]
  · intro fn htrim hends
    simp [finishFilename, htrim, hends]
  · intro fn htrim hends
    simp [finishFilename, htrim, hends]

/-- Witness for C6: a name needing trimming and an appended extension. -/
theorem filename_finishing_witness :
    finishFilename "My Report " = jsTrim "My Report " ++ ".pdf" :=
  filename_finishing.2.2.2 "My Report " (by decide) (by decide)

/-- C7.  Quality resolver: both variants' tier tables are total with the
claimed values (`high` differs between the variants: scale 3.0 in the
pdf-lib variant, 4.0 in the jsPDF variant), and for every tier the scale
factor is positive and the compression quality lies in (0, 1]. -/
theorem quality_resolver :
    (QUALITY_CONFIG PdfQuality.low = ⟨1, 6/10⟩ ∧
     QUALITY_CONFIG PdfQuality.medium = ⟨2, 75/100⟩ ∧
     QUALITY_CONFIG PdfQuality.high = ⟨3, 85/100⟩) ∧
    (SvgService.QUALITY_CONFIG PdfQuality.low = ⟨1, 6/10⟩ ∧
     SvgService.QUALITY_CONFIG PdfQuality.medium = ⟨2, 75/100⟩ ∧
     SvgService.QUALITY_CONFIG PdfQuality.high = ⟨4, 85/100⟩) ∧
    (∀ t, 0 < (QUALITY_CONFIG t).scale ∧ 0 < (QUALITY_CONFIG t).quality ∧
      (QUALITY_CONFIG t).quality ≤ 1) ∧
    (∀ t, 0 < (SvgService.QUALITY_CONFIG t).scale ∧
      0 < (SvgService.QUALITY_CONFIG t).quality ∧
      (SvgService.QUALITY_CONFIG t).quality ≤ 1) := by
  refine ⟨⟨rfl, rfl, rfl⟩, ⟨rfl, rfl, rfl⟩, ?_, ?_⟩
  · intro t
    cases t <;> refine ⟨by norm_num [QUALITY_CONFIG], by norm_num [QUALITY_CONFIG],
      by norm_num [QUALITY_CONFIG]⟩
  · intro t
    cases t <;> refine ⟨by norm_num [SvgService.QUALITY_CONFIG],
      by norm_num [SvgService.QUALITY_CONFIG], by norm_num [SvgService.QUALITY_CONFIG]⟩

/-- Every input whose parse result (when routed to the PDF branch) is not
the empty page list contributes at least one page. -/
theorem processAppFile_length_pos (s : QualitySettings) (f : AppFile)
    (hf : isPdf f = true → f.parseResult ≠ some []) :
    1 ≤ (processAppFile s f).length := by
  rw [processAppFile]
  by_cases hp : isPdf f
  · rw [if_pos hp]
    cases hres : f.parseResult with
    | none => simp
    | some ps =>
      cases ps with
      | nil => exact absurd hres (hf hp)
      | cons a l => simp
  · rw [if_neg hp]
    cases hbuf : processFileToImageBuffer s f with
    | none => simp
    | some wh =>
      cases wh with
      | mk w h => simp

/-- The flattened page groups of a list of inputs, none of which is a
parseable zero-page PDF, have at least one page per input. -/
theorem length_le_flatten_length (s : QualitySettings) :
    ∀ files : List AppFile,
    (∀ f ∈ files, isPdf f = true → f.parseResult ≠ some []) →
    files.length ≤ ((files.map (processAppFile s)).flatten).length := by
  intro files
  induction files with
  | nil => simp
  | cons f rest ih =>
    intro hall
    simp only [List.map_cons, List.flatten_cons, List.length_append, List.length_cons]
    have h1 := processAppFile_length_pos s f (hall f (by simp))
    have h2 := ih (fun g hg => hall g (by simp [hg]))
    omega

/-- C8 counterexample: a single input whose bytes parse successfully to a
zero-page document yields an output with zero pages — so "page count ≥
input count" fails for the input list `[emptyDocFile]`. -/
theorem page_count_cex :
    ((generatePdfFromFiles [emptyDocFile] PdfQuality.medium "doc" true).1.map
      (fun r => r.1.length)) = some 0 ∧
    ¬(∀ (files : List AppFile) (q : PdfQuality) (fn : String) (cb : Bool)
        (doc : List OutPage) (fname : String),
        (generatePdfFromFiles files q fn cb).1 = some (doc, fname) →
        files.length ≤ doc.length) := by
  have hres : (generatePdfFromFiles [emptyDocFile] PdfQuality.medium "doc" true).1 =
      some ([], finishFilename "doc") := by
    rw [generatePdfFromFiles_spec [emptyDocFile] PdfQuality.medium "doc" true (by simp)]
    have hproc : processAppFile (QUALITY_CONFIG PdfQuality.medium) emptyDocFile = [] := by
      have hp : isPdf emptyDocFile = true := by decide
      rw [processAppFile, if_pos hp]
      rfl
    simp [hproc]
  constructor
  · rw [hres]
    rfl
  · intro hall
    have := hall [emptyDocFile] PdfQuality.medium "doc" true [] (finishFilename "doc") hres
    simp at this

/-- C8 amended: for every non-empty input list in which no PDF input parses
to a zero-page document, the delivered document has at least as many pages
as there are inputs (each image, failed input, or non-empty document
contributes at least one page). -/
theorem page_count_lower_bound (files : List AppFile) (q : PdfQuality)
    (fn : String) (cb : Bool) (h : files ≠ [])
    (hpages : ∀ f ∈ files, isPdf f = true → f.parseResult ≠ some []) :
    ∃ doc, (generatePdfFromFiles files q fn cb).1 = some (doc, finishFilename fn) ∧
      files.length ≤ doc.length := by
  refine ⟨(files.map (processAppFile (QUALITY_CONFIG q))).flatten, ?_, ?_⟩
  · rw [generatePdfFromFiles_spec files q fn cb h]
  · exact length_le_flatten_length (QUALITY_CONFIG q) files hpages

/-- Witness for the amended C8 at a concrete three-input list. -/
theorem page_count_lower_bound_witness :
    ∃ doc,
      (generatePdfFromFiles [imgFile, docFile, badDocFile] PdfQuality.low "x" false).1 =
        some (doc, finishFilename "x") ∧
      ([imgFile, docFile, badDocFile] : List AppFile).length ≤ doc.length :=
  page_count_lower_bound [imgFile, docFile, badDocFile] PdfQuality.low "x" false
    (by simp) (by decide)

/-- Unfolding of `getPdfSizeEstimate` for a nonzero count: the displayed
size is `count · sizeMap[quality]` MB, formatted as KB below 1 MB and as MB
with one decimal otherwise. -/
theorem getPdfSizeEstimate_eq (count : Nat) (quality : PdfQuality) (hc : count ≠ 0) :
    getPdfSizeEstimate count quality =
      if estimatedTotalMB count quality < 1 then
        "~" ++ jsToFixed0 (estimatedTotalMB count quality * 1000) ++ " KB"
      else "~" ++ jsToFixed1 (estimatedTotalMB count quality) ++ " MB" := by
  cases quality <;> simp [getPdfSizeEstimate, estimatedTotalMB, sizeMap, hc]

/-- C9.  Size estimator: `estimate(0, t) = "0 MB"` for every tier; the
per-page table is {low: 0.15, medium: 0.4, high: 1.2} MB; for nonzero
counts the result is `count · perPageMB[tier]` formatted as KB below 1 MB
and as MB with one decimal otherwise; the estimated total is monotonically
non-decreasing in the count; and the concrete sample values check out. -/
theorem size_estimator :
    (∀ t, getPdfSizeEstimate 0 t = "0 MB") ∧
    (sizeMap PdfQuality.low = 15/100 ∧ sizeMap PdfQuality.medium = 4/10 ∧
     sizeMap PdfQuality.high = 12/10) ∧
    (∀ (c : Nat) t, c ≠ 0 → getPdfSizeEstimate c t =
      if estimatedTotalMB c t < 1 then
        "~" ++ jsToFixed0 (estimatedTotalMB c t * 1000) ++ " KB"
      else "~" ++ jsToFixed1 (estimatedTotalMB c t) ++ " MB") ∧
    (∀ t (c₁ c₂ : Nat), c₁ ≤ c₂ → estimatedTotalMB c₁ t ≤ estimatedTotalMB c₂ t) ∧
    (getPdfSizeEstimate 1 PdfQuality.low = "~150 KB" ∧
     getPdfSizeEstimate 2 PdfQuality.medium = "~800 KB" ∧
     getPdfSizeEstimate 3 PdfQuality.medium = "~1.2 MB" ∧
     getPdfSizeEstimate 1 PdfQuality.high = "~1.2 MB") := by
  refine ⟨?_, ⟨rfl, rfl, rfl⟩, fun c t hc => getPdfSizeEstimate_eq c t hc, ?_, ?_, ?_, ?_, ?_⟩
  · intro t
    simp [getPdfSizeEstimate]
  · intro t c₁ c₂ hcc
    unfold estimatedTotalMB
    have hsm : (0 : ℚ) ≤ sizeMap t := by cases t <;> norm_num [sizeMap]
    exact mul_le_mul_of_nonneg_right (by exact_mod_cast hcc) hsm
  · rw [getPdfSizeEstimate_eq 1 PdfQuality.low (by decide)]
    have hmb : estimatedTotalMB 1 PdfQuality.low = 15/100 := by
      norm_num [estimatedTotalMB, sizeMap]
    rw [hmb, if_pos (by norm_num)]
    have hr : jsRound ((15/100 : ℚ) * 1000) = 150 := by norm_num [jsRound]
    rw [jsToFixed0, hr]
    decide
  · rw [getPdfSizeEstimate_eq 2 PdfQuality.medium (by decide)]
    have hmb : estimatedTotalMB 2 PdfQuality.medium = 8/10 := by
      norm_num [estimatedTotalMB, sizeMap]
    rw [hmb, if_pos (by norm_num)]
    have hr : jsRound ((8/10 : ℚ) * 1000) = 800 := by norm_num [jsRound]
    rw [jsToFixed0, hr]
    decide
  · rw [getPdfSizeEstimate_eq 3 PdfQuality.medium (by decide)]
    have hmb : estimatedTotalMB 3 PdfQuality.medium = 12/10 := by
      norm_num [estimatedTotalMB, sizeMap]
    rw [hmb, if_neg (by norm_num)]
    have hr : jsRound ((12/10 : ℚ) * 10) = 12 := by norm_num [jsRound]
    rw [jsToFixed1, hr]
    decide
  · rw [getPdfSizeEstimate_eq 1 PdfQuality.high (by decide)]
    have hmb : estimatedTotalMB 1 PdfQuality.high = 12/10 := by
      norm_num [estimatedTotalMB, sizeMap]
    rw [hmb, if_neg (by norm_num)]
    have hr : jsRound ((12/10 : ℚ) * 10) = 12 := by norm_num [jsRound]
    rw [jsToFixed1, hr]
    decide

/-- Witness for C9 (monotonicity conjunct at concrete counts). -/
theorem size_estimator_witness :
    estimatedTotalMB 2 PdfQuality.low ≤ estimatedTotalMB 5 PdfQuality.low :=
  size_estimator.2.2.2.1 PdfQuality.low 2 5 (by decide)

/-- C10.  The two size-estimator implementations (pdf-lib variant and jsPDF
variant) are extensionally equal: identical output string for every count
and tier. -/
theorem estimators_equal :
    ∀ (count : Nat) (quality : PdfQuality),
      getPdfSizeEstimate count quality = SvgService.getPdfSizeEstimate count quality := by
  intro count quality
  rfl

end PdfCombiner
